import Mathlib

/-!
Shallow embedding of the AWS deployment pipeline in `src/main.py`.

The program is a linear orchestration of calls against the AWS control
plane.  Each boto3 call is modelled by an explicit outcome parameter
(`Option ClientErr` for calls whose only observable is success-or-raise,
`Except ClientErr α` for calls that return a payload): the embedding of a
Python function takes those outcomes as extra arguments and computes the
value the Python function would return, together with the observable
requests it issued (record-change batches, update requests, query indices)
so that no-mutation claims can be stated.
-/

/-- A botocore `ClientError`, reduced to the two fields the program reads:
`e.response['Error']['Code']` and `e.response['Error']['Message']`. -/
structure ClientErr where
  code : String
  message : String
deriving DecidableEq, Repr

/-- Severity of the log line emitted on a given code path
(`logger.info` / `logger.warning` / `logger.error`). -/
inductive LogLevel where
  | info
  | warning
  | error
deriving DecidableEq, Repr

/-- A Python runtime error that is not a botocore `ClientError` and hence
is not caught by the program's `except ClientError` handlers. -/
inductive PyError where
  | typeErrorNoneSubscript
  | indexError
deriving DecidableEq, Repr

/-- Constant `AWS_REGION` (src/main.py line 17). -/
def AWS_REGION : String := "us-east-1"

/-- Constant `DOMAIN_NAME` (src/main.py line 20). -/
def DOMAIN_NAME : String := "ironcliff.ai"

/-- Constant `FRONTEND_SUBDOMAIN` (src/main.py line 21). -/
def FRONTEND_SUBDOMAIN : String := "ra"

/-- Constant `BACKEND_SUBDOMAIN` (src/main.py line 22). -/
def BACKEND_SUBDOMAIN : String := "ra-api"

/-- Constant `EB_ENV_NAME` (src/main.py line 24). -/
def EB_ENV_NAME : String := "ra-env"

/-- Module-level `frontend_domain = f"{FRONTEND_SUBDOMAIN}.{DOMAIN_NAME}"`. -/
def frontend_domain : String := FRONTEND_SUBDOMAIN ++ "." ++ DOMAIN_NAME

/-- Module-level `backend_domain = f"{BACKEND_SUBDOMAIN}.{DOMAIN_NAME}"`. -/
def backend_domain : String := BACKEND_SUBDOMAIN ++ "." ++ DOMAIN_NAME

/-! ## create_s3_bucket (src/main.py lines 60-180) -/

/-- The dict returned by `create_s3_bucket`: keys `status`, `message`, and
(on success only) `website_url`. -/
structure S3Outcome where
  status : String
  message : String
  website_url : Option String
deriving DecidableEq, Repr

/-- Outcomes of the four S3 calls made by `create_s3_bucket`, in program
order: `create_bucket`, `put_public_access_block`, `put_bucket_policy`,
`put_bucket_website`.  `none` means the call succeeded; `some e` means it
raised `ClientError` `e`. -/
structure S3Provider where
  createBucket : Option ClientErr
  putPublicAccessBlock : Option ClientErr
  putBucketPolicy : Option ClientErr
  putBucketWebsite : Option ClientErr
deriving DecidableEq, Repr

/-- The first S3 call that raises, if any: control reaches a later call
only when every earlier call succeeded. -/
def s3FirstError (p : S3Provider) : Option ClientErr :=
  p.createBucket <|> p.putPublicAccessBlock <|> p.putBucketPolicy <|> p.putBucketWebsite

/-- The `except ClientError` arm of `create_s3_bucket`
(src/main.py lines 152-174), paired with the severity of the log line that
arm emits (`logger.warning` for `BucketAlreadyOwnedByYou`, `logger.error`
otherwise). -/
def classifyS3Error (domain_name : String) (e : ClientErr) : S3Outcome × LogLevel :=
  if e.code = "BucketAlreadyOwnedByYou" then
    (⟨"error", "Bucket " ++ domain_name ++ " already exists and is owned by you", none⟩,
     LogLevel.warning)
  else if e.code = "BucketAlreadyExists" then
    (⟨"error", "Bucket " ++ domain_name ++ " already exists and is owned by another AWS account",
      none⟩,
     LogLevel.error)
  else
    (⟨"error", "Error creating bucket: " ++ e.message, none⟩, LogLevel.error)

/-- `create_s3_bucket(domain_name)` (src/main.py lines 60-180).  `region`
is `s3_client.meta.region_name`; `p` gives the outcome of each S3 call.
Returns the result dict together with the severity of the log line of the
branch taken (`logger.info` on the success path). -/
def create_s3_bucket (domain_name region : String) (p : S3Provider) : S3Outcome × LogLevel :=
  match s3FirstError p with
  | some e => classifyS3Error domain_name e
  | none =>
      (⟨"success", "Bucket created and configured successfully",
        some ("http://" ++ domain_name ++ ".s3-website-" ++ region ++ ".amazonaws.com")⟩,
       LogLevel.info)

/-! ## create_acm_certificate (src/main.py lines 182-212) -/

/-- `create_acm_certificate(frontend_domain, backend_domain)`: returns the
`CertificateArn` from the `request_certificate` response, or `None` when
the call raises `ClientError`. -/
def create_acm_certificate (fd bd : String) (resp : Except ClientErr String) : Option String :=
  match fd, bd, resp with
  | _, _, Except.ok arn => some arn
  | _, _, Except.error _ => none

/-! ## get_s3_website_endpoint (src/main.py lines 293-323) -/

/-- `get_s3_website_endpoint(bucket_name, region)`: probes
`get_bucket_website` (outcome `check`); any `ClientError` there — in
particular `NoSuchWebsiteConfiguration` — makes the function return
`None`; otherwise it returns the endpoint string. -/
def get_s3_website_endpoint (bucket_name region : String) (check : Option ClientErr) :
    Option String :=
  match check with
  | some _ => none
  | none => some (bucket_name ++ ".s3-website-" ++ region ++ ".amazonaws.com")

/-! ## create_cloudfront_distribution (src/main.py lines 214-291) -/

/-- The fields of the `DistributionConfig` payload built at
src/main.py lines 238-280 that carry run-dependent data (the remaining
entries of the payload are literal constants). -/
structure DistributionConfig where
  comment : String
  aliasItems : List String
  defaultRootObject : String
  originId : String
  originDomainName : Option String
  originProtocolPolicy : String
  viewerProtocolPolicy : String
  viewerCertArn : Option String
  sslSupportMethod : String
  minimumProtocolVersion : String
  enabled : Bool
deriving DecidableEq, Repr

/-- The `Distribution` object of a successful `create_distribution`
response, reduced to the one field the program reads downstream. -/
structure Distribution where
  domainName : String
deriving DecidableEq, Repr

/-- Observable behaviour of one `create_cloudfront_distribution` call:
which bucket the endpoint lookup queried, the config payload sent to
`create_distribution`, and the returned value (`None` on `ClientError`). -/
structure CfRun where
  lookupBucket : String
  config : DistributionConfig
  result : Option Distribution
deriving DecidableEq, Repr

/-- `create_cloudfront_distribution(domain_name, certificate_arn)`
(src/main.py lines 214-291).  Note the endpoint lookup at line 232 passes
the module-level `frontend_domain`, not the `domain_name` argument.
`websiteCheck` is the outcome of the `get_bucket_website` probe inside
`get_s3_website_endpoint`; `createDist` the outcome of
`create_distribution`. -/
def create_cloudfront_distribution (domain_name : String) (certificate_arn : Option String)
    (websiteCheck : Option ClientErr) (createDist : Except ClientErr Distribution) : CfRun :=
  let s3_website_endpoint := get_s3_website_endpoint frontend_domain AWS_REGION websiteCheck
  let config : DistributionConfig :=
    { comment := "Distribution for " ++ domain_name
      aliasItems := [domain_name]
      defaultRootObject := "index.html"
      originId := "S3Origin"
      originDomainName := s3_website_endpoint
      originProtocolPolicy := "http-only"
      viewerProtocolPolicy := "redirect-to-https"
      viewerCertArn := certificate_arn
      sslSupportMethod := "sni-only"
      minimumProtocolVersion := "TLSv1.2_2021"
      enabled := true }
  match createDist with
  | Except.ok d => ⟨frontend_domain, config, some d⟩
  | Except.error _ => ⟨frontend_domain, config, none⟩

/-! ## Route53 binders (src/main.py lines 325-374 and 503-557) -/

/-- One hosted zone as returned by `list_hosted_zones`: its `Name`
(with a trailing dot, as Route53 reports it) and its `Id`. -/
structure HostedZone where
  name : String
  id : String
deriving DecidableEq, Repr

/-- Python `s.rstrip('.')`: drop trailing dots. -/
def rstripDots (s : String) : String :=
  String.mk ((s.toList.reverse.dropWhile (fun c => c = '.')).reverse)

/-- Python `s.split('.')`: the dot-separated labels of a string, via its
character list (structurally recursive, unlike `String.splitOn`). -/
def pySplitDots (s : String) : List String :=
  (s.toList.splitOn '.').map String.mk

/-- Python `'.'.join(domain_name.split('.')[-2:])` (src/main.py
lines 339 and 525): the trailing two dot-separated labels, re-joined with
dots. -/
def baseDomainOf (domain_name : String) : String :=
  let parts := pySplitDots domain_name
  String.join ((parts.drop (parts.length - 2)).intersperse ".")

/-- The zone-scanning loop at src/main.py lines 341-344 / 527-530: the
first zone whose dot-stripped name equals the base domain. -/
def findZone (zones : List HostedZone) (domain_name : String) : Option HostedZone :=
  zones.find? (fun z => rstripDots z.name == baseDomainOf domain_name)

/-- The data of a resource record set: an alias target (frontend A
record) or a plain value with TTL (backend CNAME record). -/
inductive RRData where
  | alias (hostedZoneId dnsName : String) (evaluateTargetHealth : Bool)
  | plain (ttl : Nat) (value : String)
deriving DecidableEq, Repr

/-- A `ResourceRecordSet` as sent in a change batch. -/
structure RRSet where
  name : String
  type : String
  data : RRData
deriving DecidableEq, Repr

/-- The `Action` of a Route53 change. -/
inductive R53Action where
  | upsert
  | create
deriving DecidableEq, Repr

/-- One entry of a `ChangeBatch`. -/
structure R53Change where
  action : R53Action
  rrset : RRSet
deriving DecidableEq, Repr

/-- The response of `change_resource_record_sets`, reduced to an opaque
change identifier (the program only logs it). -/
structure R53Response where
  changeId : String
deriving DecidableEq, Repr

/-- Observable behaviour of one binder call: the returned value (`None`
when no zone matched or the change call raised `ClientError`) and the
list of changes actually submitted. -/
structure R53Run where
  result : Option R53Response
  issued : List R53Change
deriving DecidableEq, Repr

/-- The `ResourceRecordSet` built by `create_frontend_route53_record`
(src/main.py lines 356-364): an `A` alias record to the CloudFront
distribution, with CloudFront's fixed hosted-zone id. -/
def frontendRRSet (domain_name cloudfront_domain_name : String) : RRSet :=
  ⟨domain_name, "A", RRData.alias "Z2FDTNDATAQYW2" cloudfront_domain_name false⟩

/-- `create_frontend_route53_record(domain_name, cloudfront_domain_name)`
(src/main.py lines 325-374).  `zones` is the `list_hosted_zones` result;
`changeResp` the outcome of `change_resource_record_sets` when reached. -/
def create_frontend_route53_record (domain_name cloudfront_domain_name : String)
    (zones : List HostedZone) (changeResp : Except ClientErr R53Response) : R53Run :=
  match findZone zones domain_name with
  | none => ⟨none, []⟩
  | some z =>
      match z, changeResp with
      | _, Except.ok r =>
          ⟨some r, [⟨R53Action.upsert, frontendRRSet domain_name cloudfront_domain_name⟩]⟩
      | _, Except.error _ =>
          ⟨none, [⟨R53Action.upsert, frontendRRSet domain_name cloudfront_domain_name⟩]⟩

/-- One Elastic Beanstalk environment as returned by
`describe_environments`, reduced to the field the binder reads. -/
structure EbEnv where
  cname : String
deriving DecidableEq, Repr

/-- The `ResourceRecordSet` built by `create_backend_route53_record`
(src/main.py lines 542-547): a plain CNAME with TTL 300 to the
environment's CNAME. -/
def backendRRSet (domain_name eb_cname : String) : RRSet :=
  ⟨domain_name, "CNAME", RRData.plain 300 eb_cname⟩

/-- `create_backend_route53_record(domain_name)` (src/main.py
lines 503-557).  `describeEnvs` is the outcome of `describe_environments`
(a `ClientError` there is caught and yields `None`); subscripting an
empty environment list at line 518 raises an `IndexError`, which the
`except ClientError` handler does not catch, so the function propagates
it (`Except.error`). -/
def create_backend_route53_record (domain_name : String)
    (describeEnvs : Except ClientErr (List EbEnv)) (zones : List HostedZone)
    (changeResp : Except ClientErr R53Response) : Except PyError R53Run :=
  match describeEnvs with
  | Except.error _ => Except.ok ⟨none, []⟩
  | Except.ok [] => Except.error PyError.indexError
  | Except.ok (env :: _) =>
      match findZone zones domain_name with
      | none => Except.ok ⟨none, []⟩
      | some z =>
          match z, changeResp with
          | _, Except.ok r =>
              Except.ok ⟨some r, [⟨R53Action.upsert, backendRRSet domain_name env.cname⟩]⟩
          | _, Except.error _ =>
              Except.ok ⟨none, [⟨R53Action.upsert, backendRRSet domain_name env.cname⟩]⟩

/-! ## wait_for_eb_environment_ready (src/main.py lines 376-418) -/

/-- Result of one `describe_environments` query inside the waiter:
the call raised `ClientError`, returned an empty `Environments` list, or
returned an environment with the given `Status` and `Health`. -/
inductive EbQueryResult where
  | clientError (e : ClientErr)
  | notFound
  | envStatus (s h : String)
deriving DecidableEq, Repr

/-- Whether a query result is a proper environment status (neither a
`ClientError` nor an empty environment list). -/
def isEnvStatus : EbQueryResult → Bool
  | EbQueryResult.envStatus _ _ => true
  | _ => false

/-- Whether a query result reports `Status == 'Ready'`. -/
def isReady : EbQueryResult → Bool
  | EbQueryResult.envStatus s _ => s = "Ready"
  | _ => false

/-- Observable behaviour of one waiter call: its boolean return value,
the indices of the queries it performed (query `k` happens after `k`
sleeps of 10 seconds, i.e. at elapsed time `10 * k`), and the number of
`time.sleep(10)` calls it made. -/
structure WaitTrace where
  result : Bool
  queries : List Nat
  sleeps : Nat
deriving DecidableEq, Repr

/-- The `while time.time() - start_time < timeout_seconds` loop of
`wait_for_eb_environment_ready` (src/main.py lines 391-418), with time
passing only in `time.sleep(10)`: at iteration `k` the elapsed time is
`10 * k`.  `query k` gives the result of the `k`-th
`describe_environments` call.  `fuel` is a structural bound on the
iteration count; every use supplies `timeout + 1`, which lemma
`waitStep_fuel_irrelevant`-style invariants show is never exhausted. -/
def waitStep (query : Nat → EbQueryResult) (timeout : Nat) : Nat → Nat → WaitTrace
  | _, 0 => ⟨false, [], 0⟩
  | k, fuel + 1 =>
      if 10 * k < timeout then
        match query k with
        | EbQueryResult.clientError _ => ⟨false, [k], 0⟩
        | EbQueryResult.notFound => ⟨false, [k], 0⟩
        | EbQueryResult.envStatus s _ =>
            if s = "Ready" then ⟨true, [k], 0⟩
            else
              let rest := waitStep query timeout (k + 1) fuel
              ⟨rest.result, k :: rest.queries, rest.sleeps + 1⟩
      else ⟨false, [], 0⟩

/-- A full run of the waiter loop from the start, with enough fuel. -/
def waitRun (query : Nat → EbQueryResult) (timeout : Nat) : WaitTrace :=
  waitStep query timeout 0 (timeout + 1)

/-- `wait_for_eb_environment_ready(environment_name, timeout_seconds)`:
the boolean the Python function returns. -/
def wait_for_eb_environment_ready (query : Nat → EbQueryResult) (timeout : Nat := 300) : Bool :=
  (waitRun query timeout).result

/-! ## configure_eb_https (src/main.py lines 420-501) -/

/-- The `option_settings` payload of the `update_environment` call
(src/main.py lines 428-483), as (Namespace, OptionName, Value) triples. -/
def eb_https_option_settings (certificate_arn : Option String) :
    List (String × String × Option String) :=
  [("aws:elbv2:listener:443", "Protocol", some "HTTPS"),
   ("aws:elbv2:listener:443", "SSLCertificateArns", certificate_arn),
   ("aws:elbv2:listener:443", "DefaultProcess", some "default"),
   ("aws:elbv2:listener:80", "Protocol", some "HTTP"),
   ("aws:elbv2:listener:80", "DefaultProcess", some "default"),
   ("aws:elasticbeanstalk:environment:process:redirect", "Port", some "443"),
   ("aws:elasticbeanstalk:environment:process:redirect", "Protocol", some "HTTPS"),
   ("aws:elbv2:listenerrule:redirect", "PathPatterns", some "/*"),
   ("aws:elbv2:listenerrule:redirect", "Priority", some "1"),
   ("aws:elbv2:listenerrule:redirect", "Process", some "redirect")]

/-- The `update_environment` response, reduced to an opaque marker. -/
structure EbUpdateResponse where
  requestId : String
deriving DecidableEq, Repr

/-- Observable behaviour of one `configure_eb_https` call: the returned
value (`None` when the readiness gate fails or the update raises) and the
update request submitted, if any. -/
structure EbHttpsRun where
  result : Option EbUpdateResponse
  updateRequest : Option (String × List (String × String × Option String))
deriving DecidableEq, Repr

/-- `configure_eb_https(environment_name, certificate_arn)`
(src/main.py lines 420-501).  `query1` feeds the gating waiter call at
line 422, `query2` the post-update waiter call at line 492 (which only
affects logging); `upd` is the outcome of `update_environment`. -/
def configure_eb_https (environment_name : String) (certificate_arn : Option String)
    (query1 query2 : Nat → EbQueryResult) (upd : Except ClientErr EbUpdateResponse) :
    EbHttpsRun :=
  if wait_for_eb_environment_ready query1 300 = false then ⟨none, none⟩
  else
    match upd with
    | Except.error _ =>
        ⟨none, some (environment_name, eb_https_option_settings certificate_arn)⟩
    | Except.ok r =>
        let _secondWait := wait_for_eb_environment_ready query2 300
        ⟨some r, some (environment_name, eb_https_option_settings certificate_arn)⟩

/-! ## Route53 record-store semantics

Modelled from the spec: the Route53 service's handling of a change batch
is not part of the repository source; the spec's glossary defines upsert
as "create-if-absent-else-replace semantics for a DNS record set", and a
create-only change on an existing (name, type) key is the duplicate-record
error the spec contrasts it with. -/

/-- The identity of a record set inside a zone: its (name, type) pair. -/
def rrKey (r : RRSet) : String × String := (r.name, r.type)

/-- Modelled from the spec: applying one change to a zone's record sets.
`upsert` replaces any record set with the same (name, type) key;
`create` fails with a duplicate-record error when the key exists. -/
def applyChange (store : List RRSet) (c : R53Change) : Except String (List RRSet) :=
  match c.action with
  | R53Action.create =>
      if store.any (fun r => rrKey r = rrKey c.rrset) then
        Except.error "duplicate record set"
      else Except.ok (c.rrset :: store)
  | R53Action.upsert =>
      Except.ok (c.rrset :: store.filter (fun r => rrKey r ≠ rrKey c.rrset))

/-- Modelled from the spec: the record set a zone resolves for a
(name, type) query. -/
def lookupRR (store : List RRSet) (name type : String) : Option RRSet :=
  store.find? (fun r => rrKey r = (name, type))

/-! ## deploy_app (src/main.py lines 559-590) -/

/-- The pipeline stages `deploy_app` can enter, in program order. -/
inductive Stage where
  | s3
  | acm
  | cloudfront
  | frontendDns
  | ebHttps
  | backendDns
deriving DecidableEq, Repr

/-- All provider-call outcomes one `deploy_app` run can observe. -/
structure World where
  s3 : S3Provider
  acm : Except ClientErr String
  frontendWebsiteCheck : Option ClientErr
  createDist : Except ClientErr Distribution
  zones : List HostedZone
  frontendChangeResp : Except ClientErr R53Response
  ebQuery1 : Nat → EbQueryResult
  ebQuery2 : Nat → EbQueryResult
  ebUpdate : Except ClientErr EbUpdateResponse
  describeEnvs : Except ClientErr (List EbEnv)
  backendChangeResp : Except ClientErr R53Response

/-- `deploy_app()` (src/main.py lines 559-590): the stages entered and
the uncaught Python error that terminated the run, if any.  When
`create_cloudfront_distribution` returns `None`, line 584 subscripts it
(`cloudfront_distribution['DomainName']`), raising an uncaught
`TypeError` while evaluating the arguments of the frontend binder — so
the frontend binder itself, `configure_eb_https` and the backend binder
are never entered. -/
def deploy_app (w : World) : List Stage × Option PyError :=
  let _s3_result := create_s3_bucket frontend_domain AWS_REGION w.s3
  let cert_arn := create_acm_certificate frontend_domain backend_domain w.acm
  let cf := create_cloudfront_distribution frontend_domain cert_arn
    w.frontendWebsiteCheck w.createDist
  match cf.result with
  | none => ([Stage.s3, Stage.acm, Stage.cloudfront], some PyError.typeErrorNoneSubscript)
  | some d =>
      let _fr := create_frontend_route53_record frontend_domain d.domainName
        w.zones w.frontendChangeResp
      let _eb := configure_eb_https EB_ENV_NAME cert_arn w.ebQuery1 w.ebQuery2 w.ebUpdate
      match create_backend_route53_record backend_domain w.describeEnvs
          w.zones w.backendChangeResp with
      | Except.error e =>
          ([Stage.s3, Stage.acm, Stage.cloudfront, Stage.frontendDns, Stage.ebHttps,
            Stage.backendDns], some e)
      | Except.ok _ =>
          ([Stage.s3, Stage.acm, Stage.cloudfront, Stage.frontendDns, Stage.ebHttps,
            Stage.backendDns], none)

/-! ## Witness inputs -/

/-- A query stream whose first result is `Updating` and whose later
results are `Ready`. -/
def queryReadyAtOne : Nat → EbQueryResult := fun k =>
  if k = 1 then EbQueryResult.envStatus "Ready" "Green"
  else EbQueryResult.envStatus "Updating" "Grey"

/-- A query stream that always reports an empty environment list. -/
def queryNotFound : Nat → EbQueryResult := fun _ => EbQueryResult.notFound

/-- A concrete run in which `create_distribution` fails and every other
provider call succeeds. -/
def worldCfFails : World where
  s3 := ⟨none, none, none, none⟩
  acm := Except.ok "arn:aws:acm:us-east-1:123456789012:certificate/abc"
  frontendWebsiteCheck := none
  createDist := Except.error ⟨"InvalidViewerCertificate", "certificate is not validated"⟩
  zones := [⟨"ironcliff.ai.", "Z1"⟩]
  frontendChangeResp := Except.ok ⟨"change-f"⟩
  ebQuery1 := fun _ => EbQueryResult.envStatus "Ready" "Green"
  ebQuery2 := fun _ => EbQueryResult.envStatus "Ready" "Green"
  ebUpdate := Except.ok ⟨"req-1"⟩
  describeEnvs := Except.ok [⟨"ra-env.us-east-1.elasticbeanstalk.com"⟩]
  backendChangeResp := Except.ok ⟨"change-b"⟩

/-! ## Lemmas about the waiter loop -/

/-- Every query the waiter loop performs happens strictly before the
deadline: query `k` is only issued when `10 * k < timeout`. -/
theorem waitStep_queries_before_deadline (query : Nat → EbQueryResult) (timeout : Nat) :
    ∀ fuel k, ∀ i ∈ (waitStep query timeout k fuel).queries, 10 * i < timeout := by
  intro fuel
  induction fuel with
  | zero => intro k i hi; simp [waitStep] at hi
  | succ n ih =>
      intro k i hi
      by_cases h10 : 10 * k < timeout
      · cases hq : query k with
        | clientError e =>
            simp [waitStep, h10, hq] at hi
            omega
        | notFound =>
            simp [waitStep, h10, hq] at hi
            omega
        | envStatus s h =>
            by_cases hr : s = "Ready"
            · simp [waitStep, h10, hq, hr] at hi
              omega
            · simp [waitStep, h10, hq, hr] at hi
              rcases hi with hi | hi
              · omega
              · exact ih (k + 1) i hi
      · simp [waitStep, h10] at hi

/-- When every query yields a proper environment status, the waiter loop
started at iteration `k` returns `true` exactly when some query at an
index `j ≥ k` before the deadline reads `Ready`; the fuel hypothesis
`timeout ≤ 10 * k + 10 * fuel` makes fuel exhaustion unreachable. -/
theorem waitStep_result_iff (query : Nat → EbQueryResult) (timeout : Nat)
    (hs : ∀ j, isEnvStatus (query j) = true) :
    ∀ fuel k, timeout ≤ 10 * k + 10 * fuel →
      ((waitStep query timeout k fuel).result = true ↔
        ∃ j, k ≤ j ∧ 10 * j < timeout ∧ isReady (query j) = true) := by
  intro fuel
  induction fuel with
  | zero =>
      intro k hk
      constructor
      · intro h; simp [waitStep] at h
      · rintro ⟨j, hj, hjt, _⟩; exact absurd hjt (by omega)
  | succ n ih =>
      intro k hk
      by_cases h10 : 10 * k < timeout
      · have hsk := hs k
        cases hq : query k with
        | clientError e => rw [hq] at hsk; simp [isEnvStatus] at hsk
        | notFound => rw [hq] at hsk; simp [isEnvStatus] at hsk
        | envStatus s hh =>
            by_cases hr : s = "Ready"
            · have hstep : (waitStep query timeout k (n + 1)).result = true := by
                simp [waitStep, h10, hq, hr]
              exact iff_of_true hstep
                ⟨k, Nat.le_refl k, h10, by rw [hq]; simp [isReady, hr]⟩
            · have hstep : (waitStep query timeout k (n + 1)).result =
                  (waitStep query timeout (k + 1) n).result := by
                simp [waitStep, h10, hq, hr]
              rw [hstep, ih (k + 1) (by omega)]
              constructor
              · rintro ⟨j, hjk, hjt, hjr⟩
                exact ⟨j, by omega, hjt, hjr⟩
              · rintro ⟨j, hjk, hjt, hjr⟩
                refine ⟨j, ?_, hjt, hjr⟩
                rcases Nat.lt_or_ge k j with h | h
                · omega
                · have hjek : j = k := by omega
                  subst hjek
                  rw [hq] at hjr
                  simp [isReady] at hjr
                  exact absurd hjr hr
      · constructor
        · intro h; simp [waitStep, h10] at h
        · rintro ⟨j, hjk, hjt, _⟩; exact absurd hjt (by omega)

/-! ## Claim theorems -/

/-- C2: for every query stream (every environment name) and every timeout,
provided each query returns a proper status, `wait_for_eb_environment_ready`
returns `true` exactly when some query before the deadline reads `Ready`
(and hence `false` when the deadline elapses first), and no status query is
performed at or after the deadline. -/
theorem c2_waiter_deadline_semantics (query : Nat → EbQueryResult) (timeout : Nat)
    (hs : ∀ j, isEnvStatus (query j) = true) :
    ((wait_for_eb_environment_ready query timeout = true) ↔
      ∃ k, 10 * k < timeout ∧ isReady (query k) = true)
    ∧ (∀ i ∈ (waitRun query timeout).queries, 10 * i < timeout) := by
  constructor
  · have h := waitStep_result_iff query timeout hs (timeout + 1) 0 (by omega)
    unfold wait_for_eb_environment_ready waitRun
    rw [h]
    constructor
    · rintro ⟨j, _, hjt, hjr⟩; exact ⟨j, hjt, hjr⟩
    · rintro ⟨k, hkt, hkr⟩; exact ⟨k, Nat.zero_le k, hkt, hkr⟩
  · intro i hi
    exact waitStep_queries_before_deadline query timeout (timeout + 1) 0 i hi

/-- Witness for C2 at a concrete query stream that reads `Ready` on its
second query, with the default 300-second timeout. -/
theorem c2_waiter_deadline_semantics_witness :
    ((wait_for_eb_environment_ready queryReadyAtOne 300 = true) ↔
      ∃ k, 10 * k < 300 ∧ isReady (queryReadyAtOne k) = true)
    ∧ (∀ i ∈ (waitRun queryReadyAtOne 300).queries, 10 * i < 300) :=
  c2_waiter_deadline_semantics queryReadyAtOne 300 (by
    intro j
    unfold queryReadyAtOne
    by_cases h : j = 1 <;> simp [h, isEnvStatus])

/-- C5: when the first query reports an empty environment list, the waiter
returns `false` having performed exactly that one query and no sleep, for
every positive timeout. -/
theorem c5_not_found_immediate (query : Nat → EbQueryResult) (timeout : Nat)
    (ht : 0 < timeout) (h0 : query 0 = EbQueryResult.notFound) :
    wait_for_eb_environment_ready query timeout = false
    ∧ (waitRun query timeout).queries = [0]
    ∧ (waitRun query timeout).sleeps = 0 := by
  have h10 : 10 * 0 < timeout := by omega
  have hrun : waitRun query timeout = ⟨false, [0], 0⟩ := by
    unfold waitRun
    simp [waitStep, h10, h0]
    omega
  exact ⟨by simp [wait_for_eb_environment_ready, hrun],
    by rw [hrun], by rw [hrun]⟩

/-- Witness for C5 at the always-empty query stream and the default
300-second timeout. -/
theorem c5_not_found_immediate_witness :
    wait_for_eb_environment_ready queryNotFound 300 = false
    ∧ (waitRun queryNotFound 300).queries = [0]
    ∧ (waitRun queryNotFound 300).sleeps = 0 :=
  c5_not_found_immediate queryNotFound 300 (by omega) rfl

/-- C3: whenever the gating readiness wait (default 300-second timeout)
returns `false`, `configure_eb_https` returns `None` and submits no
`update_environment` request. -/
theorem c3_https_aborts_without_update (environment_name : String)
    (certificate_arn : Option String) (query1 query2 : Nat → EbQueryResult)
    (upd : Except ClientErr EbUpdateResponse)
    (h : wait_for_eb_environment_ready query1 300 = false) :
    configure_eb_https environment_name certificate_arn query1 query2 upd = ⟨none, none⟩ := by
  simp [configure_eb_https, h]

/-- Witness for C3 at a query stream for which the gating wait fails
immediately. -/
theorem c3_https_aborts_without_update_witness :
    configure_eb_https "ra-env" (some "arn:aws:acm:us-east-1:123456789012:certificate/abc")
      queryNotFound queryNotFound (Except.ok ⟨"req-1"⟩) = ⟨none, none⟩ :=
  c3_https_aborts_without_update "ra-env"
    (some "arn:aws:acm:us-east-1:123456789012:certificate/abc")
    queryNotFound queryNotFound (Except.ok ⟨"req-1"⟩) rfl

/-- C1: when the provider reports `BucketAlreadyOwnedByYou`,
`create_s3_bucket` takes the recoverable-duplicate arm — logged at warning
severity rather than error severity — and the returned dict differs from
the one returned for a third-party `BucketAlreadyExists` conflict, which
takes the fatal arm. -/
theorem c1_owned_by_you_recoverable (domain_name region : String) (p q : S3Provider)
    (m m' : String)
    (hp : s3FirstError p = some ⟨"BucketAlreadyOwnedByYou", m⟩)
    (hq : s3FirstError q = some ⟨"BucketAlreadyExists", m'⟩) :
    (create_s3_bucket domain_name region p).2 = LogLevel.warning
    ∧ (create_s3_bucket domain_name region q).2 = LogLevel.error
    ∧ (create_s3_bucket domain_name region p).1.status = "error"
    ∧ (create_s3_bucket domain_name region q).1.status = "error"
    ∧ (create_s3_bucket domain_name region p).1 ≠ (create_s3_bucket domain_name region q).1 := by
  have hp1 : create_s3_bucket domain_name region p =
      (⟨"error", "Bucket " ++ domain_name ++ " already exists and is owned by you", none⟩,
       LogLevel.warning) := by
    simp [create_s3_bucket, hp, classifyS3Error]
  have hq1 : create_s3_bucket domain_name region q =
      (⟨"error",
        "Bucket " ++ domain_name ++ " already exists and is owned by another AWS account",
        none⟩,
       LogLevel.error) := by
    simp [create_s3_bucket, hq, classifyS3Error]
  refine ⟨by rw [hp1], by rw [hq1], by rw [hp1], by rw [hq1], ?_⟩
  rw [hp1, hq1]
  intro hcontra
  have hmsg : "Bucket " ++ domain_name ++ " already exists and is owned by you" =
      "Bucket " ++ domain_name ++ " already exists and is owned by another AWS account" :=
    congrArg S3Outcome.message hcontra
  have hlen := congrArg String.length hmsg
  rw [String.length_append, String.length_append, String.length_append,
    String.length_append] at hlen
  have h35 : (" already exists and is owned by you" : String).length = 35 := rfl
  have h51 : (" already exists and is owned by another AWS account" : String).length = 51 := rfl
  rw [h35, h51] at hlen
  omega

/-- Witness for C1 at concrete provider states whose `create_bucket` call
raises the two ownership-conflict codes. -/
theorem c1_owned_by_you_recoverable_witness :
    (create_s3_bucket "ra.ironcliff.ai" "us-east-1"
      ⟨some ⟨"BucketAlreadyOwnedByYou", "owned by you"⟩, none, none, none⟩).2 =
        LogLevel.warning
    ∧ (create_s3_bucket "ra.ironcliff.ai" "us-east-1"
      ⟨some ⟨"BucketAlreadyExists", "owned elsewhere"⟩, none, none, none⟩).2 =
        LogLevel.error
    ∧ (create_s3_bucket "ra.ironcliff.ai" "us-east-1"
      ⟨some ⟨"BucketAlreadyOwnedByYou", "owned by you"⟩, none, none, none⟩).1.status = "error"
    ∧ (create_s3_bucket "ra.ironcliff.ai" "us-east-1"
      ⟨some ⟨"BucketAlreadyExists", "owned elsewhere"⟩, none, none, none⟩).1.status = "error"
    ∧ (create_s3_bucket "ra.ironcliff.ai" "us-east-1"
      ⟨some ⟨"BucketAlreadyOwnedByYou", "owned by you"⟩, none, none, none⟩).1 ≠
      (create_s3_bucket "ra.ironcliff.ai" "us-east-1"
      ⟨some ⟨"BucketAlreadyExists", "owned elsewhere"⟩, none, none, none⟩).1 :=
  c1_owned_by_you_recoverable "ra.ironcliff.ai" "us-east-1"
    ⟨some ⟨"BucketAlreadyOwnedByYou", "owned by you"⟩, none, none, none⟩
    ⟨some ⟨"BucketAlreadyExists", "owned elsewhere"⟩, none, none, none⟩
    "owned by you" "owned elsewhere" rfl rfl

/-- C7 counterexample: on the success path the returned `website_url`
carries an `http://` scheme prefix, so it does not equal the bare
endpoint `<hostname>.s3-website-<region>.amazonaws.com` the claim
states. -/
theorem c7_counterexample :
    (create_s3_bucket "ra.example.com" "us-east-1" ⟨none, none, none, none⟩).1.website_url ≠
      some "ra.example.com.s3-website-us-east-1.amazonaws.com" := by
  decide

/-- C7 (amended): for every invocation in which no S3 call fails — in
particular the bucket name is not already taken — `create_s3_bucket`
returns the success outcome whose `website_url` equals
`http://<hostname>.s3-website-<region>.amazonaws.com`, built from the
hostname and the client's region. -/
theorem c7_success_endpoint (domain_name region : String) (p : S3Provider)
    (h : s3FirstError p = none) :
    create_s3_bucket domain_name region p =
      (⟨"success", "Bucket created and configured successfully",
        some ("http://" ++ domain_name ++ ".s3-website-" ++ region ++ ".amazonaws.com")⟩,
       LogLevel.info) := by
  simp [create_s3_bucket, h]

/-- Witness for the amended C7 at a concrete hostname and region with an
all-success provider state. -/
theorem c7_success_endpoint_witness :
    create_s3_bucket "ra.example.com" "us-east-1" ⟨none, none, none, none⟩ =
      (⟨"success", "Bucket created and configured successfully",
        some ("http://" ++ "ra.example.com" ++ ".s3-website-" ++ "us-east-1" ++
          ".amazonaws.com")⟩,
       LogLevel.info) :=
  c7_success_endpoint "ra.example.com" "us-east-1" ⟨none, none, none, none⟩ rfl

/-- C4: when no hosted zone's dot-stripped name equals the hostname's
trailing-two-label base domain, the frontend binder returns `None` with no
change submitted, and the backend binder (its environment lookup having
succeeded) likewise returns `None` with no change submitted and raises
nothing. -/
theorem c4_no_zone_soft_noop (domain_name cloudfront_domain_name : String)
    (zones : List HostedZone) (fresp bresp : Except ClientErr R53Response)
    (env : EbEnv) (envs : List EbEnv)
    (hz : ∀ z ∈ zones, rstripDots z.name ≠ baseDomainOf domain_name) :
    create_frontend_route53_record domain_name cloudfront_domain_name zones fresp =
      ⟨none, []⟩
    ∧ create_backend_route53_record domain_name (Except.ok (env :: envs)) zones bresp =
      Except.ok ⟨none, []⟩ := by
  have hfind : findZone zones domain_name = none := by
    rw [findZone, List.find?_eq_none]
    intro z hzz
    simp only [beq_iff_eq]
    exact hz z hzz
  exact ⟨by simp [create_frontend_route53_record, hfind],
    by simp [create_backend_route53_record, hfind]⟩

/-- Witness for C4 at a hostname whose base domain is hosted nowhere in
the account's single zone. -/
theorem c4_no_zone_soft_noop_witness :
    create_frontend_route53_record "ra.ironcliff.ai" "d123.cloudfront.net"
      [⟨"example.org.", "Z9"⟩] (Except.ok ⟨"change-f"⟩) = ⟨none, []⟩
    ∧ create_backend_route53_record "ra.ironcliff.ai"
      (Except.ok [⟨"ra-env.us-east-1.elasticbeanstalk.com"⟩]) [⟨"example.org.", "Z9"⟩]
      (Except.ok ⟨"change-b"⟩) = Except.ok ⟨none, []⟩ :=
  c4_no_zone_soft_noop "ra.ironcliff.ai" "d123.cloudfront.net" [⟨"example.org.", "Z9"⟩]
    (Except.ok ⟨"change-f"⟩) (Except.ok ⟨"change-b"⟩)
    ⟨"ra-env.us-east-1.elasticbeanstalk.com"⟩ [] (by decide)

/-- C6 counterexample: when `describe_environments` returns an empty
environment list — the named environment does not exist —
`create_backend_route53_record` does not return normally: subscripting
`['Environments'][0]` raises an `IndexError` that the `except ClientError`
handler does not catch, even with a matching hosted zone present. -/
theorem c6_counterexample :
    create_backend_route53_record backend_domain (Except.ok ([] : List EbEnv))
      [⟨"ironcliff.ai.", "Z1"⟩] (Except.ok ⟨"change-1"⟩) =
      Except.error PyError.indexError := rfl

/-- C6 (amended): the absent-resource conditions of a missing hosted zone
and a missing bucket website configuration are soft no-ops returning a
failure value without raising — but a missing environment is not:
`create_backend_route53_record` propagates an uncaught `IndexError` when
the environment list is empty. -/
theorem c6_soft_noop_amended (bucket_name region : String) (e : ClientErr)
    (domain_name : String) (zones : List HostedZone) (env : EbEnv) (envs : List EbEnv)
    (bresp : Except ClientErr R53Response)
    (hz : ∀ z ∈ zones, rstripDots z.name ≠ baseDomainOf domain_name) :
    get_s3_website_endpoint bucket_name region (some e) = none
    ∧ create_backend_route53_record domain_name (Except.ok (env :: envs)) zones bresp =
      Except.ok ⟨none, []⟩
    ∧ create_backend_route53_record domain_name (Except.ok ([] : List EbEnv)) zones bresp =
      Except.error PyError.indexError := by
  have hfind : findZone zones domain_name = none := by
    rw [findZone, List.find?_eq_none]
    intro z hzz
    simp only [beq_iff_eq]
    exact hz z hzz
  exact ⟨rfl, by simp [create_backend_route53_record, hfind], rfl⟩

/-- Witness for the amended C6 at a website-config error, an account with
one non-matching zone, and present/absent environments. -/
theorem c6_soft_noop_amended_witness :
    get_s3_website_endpoint "ra.ironcliff.ai" "us-east-1"
      (some ⟨"NoSuchWebsiteConfiguration",
        "The specified bucket does not have a website configuration"⟩) = none
    ∧ create_backend_route53_record "ra-api.ironcliff.ai"
      (Except.ok [⟨"ra-env.us-east-1.elasticbeanstalk.com"⟩]) [⟨"example.org.", "Z9"⟩]
      (Except.ok ⟨"change-b"⟩) = Except.ok ⟨none, []⟩
    ∧ create_backend_route53_record "ra-api.ironcliff.ai" (Except.ok ([] : List EbEnv))
      [⟨"example.org.", "Z9"⟩] (Except.ok ⟨"change-b"⟩) =
      Except.error PyError.indexError :=
  c6_soft_noop_amended "ra.ironcliff.ai" "us-east-1"
    ⟨"NoSuchWebsiteConfiguration",
      "The specified bucket does not have a website configuration"⟩
    "ra-api.ironcliff.ai" [⟨"example.org.", "Z9"⟩]
    ⟨"ra-env.us-east-1.elasticbeanstalk.com"⟩ [] (Except.ok ⟨"change-b"⟩) (by decide)

/-- C9: the origin `DomainName` of the distribution configuration and the
bucket queried by the endpoint lookup are both computed from the
module-level `frontend_domain` constant, so two calls of
`create_cloudfront_distribution` differing only in their `domain_name`
argument issue the same endpoint lookup and the same origin
`DomainName`. -/
theorem c9_origin_independent_of_domain (d1 d2 : String) (cert : Option String)
    (websiteCheck : Option ClientErr) (createDist : Except ClientErr Distribution) :
    (create_cloudfront_distribution d1 cert websiteCheck createDist).lookupBucket =
      (create_cloudfront_distribution d2 cert websiteCheck createDist).lookupBucket
    ∧ (create_cloudfront_distribution d1 cert websiteCheck createDist).config.originDomainName =
      (create_cloudfront_distribution d2 cert websiteCheck createDist).config.originDomainName := by
  cases createDist <;> simp [create_cloudfront_distribution]

/-- C10: whenever `create_distribution` fails, so that
`create_cloudfront_distribution` returns `None`, `deploy_app` dies with an
uncaught `TypeError` subscripting that `None` at the frontend DNS-binding
step, and the HTTPS-configuration and backend DNS stages are never
entered. -/
theorem c10_deploy_crashes_on_cf_failure (w : World) (e : ClientErr)
    (h : w.createDist = Except.error e) :
    deploy_app w =
      ([Stage.s3, Stage.acm, Stage.cloudfront], some PyError.typeErrorNoneSubscript)
    ∧ Stage.ebHttps ∉ (deploy_app w).1 ∧ Stage.backendDns ∉ (deploy_app w).1 := by
  have hda : deploy_app w =
      ([Stage.s3, Stage.acm, Stage.cloudfront], some PyError.typeErrorNoneSubscript) := by
    simp [deploy_app, create_cloudfront_distribution, h]
  refine ⟨hda, ?_, ?_⟩ <;> rw [hda] <;> decide

/-- Witness for C10 at a concrete run in which only `create_distribution`
fails. -/
theorem c10_deploy_crashes_on_cf_failure_witness :
    worldCfFails.createDist =
      Except.error ⟨"InvalidViewerCertificate", "certificate is not validated"⟩
    ∧ (deploy_app worldCfFails =
        ([Stage.s3, Stage.acm, Stage.cloudfront], some PyError.typeErrorNoneSubscript)
      ∧ Stage.ebHttps ∉ (deploy_app worldCfFails).1
      ∧ Stage.backendDns ∉ (deploy_app worldCfFails).1) :=
  ⟨rfl, c10_deploy_crashes_on_cf_failure worldCfFails
    ⟨"InvalidViewerCertificate", "certificate is not validated"⟩ rfl⟩

/-- C8: with a matching hosted zone, each binder submits exactly one
change whose action is upsert; applying the two changes of two successive
calls with different destinations to any record store succeeds both times
(never a duplicate-record error) and leaves the second destination as the
record's target — for the frontend `A` alias and the backend `CNAME`
alike. -/
theorem c8_upsert_second_wins (domain_name d1 d2 : String)
    (zones : List HostedZone) (z : HostedZone) (resp1 resp2 : R53Response)
    (env1 env2 : EbEnv)
    (hfz : findZone zones domain_name = some z) (_hd : d1 ≠ d2)
    (_hc : env1.cname ≠ env2.cname) :
    ((create_frontend_route53_record domain_name d1 zones (Except.ok resp1)).issued =
        [⟨R53Action.upsert, frontendRRSet domain_name d1⟩]
      ∧ (create_frontend_route53_record domain_name d2 zones (Except.ok resp2)).issued =
        [⟨R53Action.upsert, frontendRRSet domain_name d2⟩]
      ∧ ∀ store : List RRSet,
          (do
            let s1 ← applyChange store ⟨R53Action.upsert, frontendRRSet domain_name d1⟩
            let s2 ← applyChange s1 ⟨R53Action.upsert, frontendRRSet domain_name d2⟩
            pure (lookupRR s2 domain_name "A")) =
          Except.ok (some (frontendRRSet domain_name d2)))
    ∧ (create_backend_route53_record domain_name (Except.ok [env1]) zones
          (Except.ok resp1) =
        Except.ok ⟨some resp1, [⟨R53Action.upsert, backendRRSet domain_name env1.cname⟩]⟩
      ∧ create_backend_route53_record domain_name (Except.ok [env2]) zones
          (Except.ok resp2) =
        Except.ok ⟨some resp2, [⟨R53Action.upsert, backendRRSet domain_name env2.cname⟩]⟩
      ∧ ∀ store : List RRSet,
          (do
            let s1 ← applyChange store ⟨R53Action.upsert, backendRRSet domain_name env1.cname⟩
            let s2 ← applyChange s1 ⟨R53Action.upsert, backendRRSet domain_name env2.cname⟩
            pure (lookupRR s2 domain_name "CNAME")) =
          Except.ok (some (backendRRSet domain_name env2.cname))) := by
  refine ⟨⟨?_, ?_, ?_⟩, ?_, ?_, ?_⟩
  · simp [create_frontend_route53_record, hfz]
  · simp [create_frontend_route53_record, hfz]
  · intro store
    simp [applyChange, lookupRR, rrKey, frontendRRSet, List.find?]
    rfl
  · simp [create_backend_route53_record, hfz]
  · simp [create_backend_route53_record, hfz]
  · intro store
    simp [applyChange, lookupRR, rrKey, backendRRSet, List.find?]
    rfl

/-- Witness for C8 at the account's matching zone, two CloudFront domains
and two environment CNAMEs. -/
theorem c8_upsert_second_wins_witness :
    ((create_frontend_route53_record "ra.ironcliff.ai" "dA.cloudfront.net"
        [⟨"ironcliff.ai.", "Z1"⟩] (Except.ok ⟨"change-1"⟩)).issued =
        [⟨R53Action.upsert, frontendRRSet "ra.ironcliff.ai" "dA.cloudfront.net"⟩]
      ∧ (create_frontend_route53_record "ra.ironcliff.ai" "dB.cloudfront.net"
        [⟨"ironcliff.ai.", "Z1"⟩] (Except.ok ⟨"change-2"⟩)).issued =
        [⟨R53Action.upsert, frontendRRSet "ra.ironcliff.ai" "dB.cloudfront.net"⟩]
      ∧ ∀ store : List RRSet,
          (do
            let s1 ← applyChange store
              ⟨R53Action.upsert, frontendRRSet "ra.ironcliff.ai" "dA.cloudfront.net"⟩
            let s2 ← applyChange s1
              ⟨R53Action.upsert, frontendRRSet "ra.ironcliff.ai" "dB.cloudfront.net"⟩
            pure (lookupRR s2 "ra.ironcliff.ai" "A")) =
          Except.ok (some (frontendRRSet "ra.ironcliff.ai" "dB.cloudfront.net")))
    ∧ (create_backend_route53_record "ra.ironcliff.ai"
        (Except.ok [(⟨"cnameA.elasticbeanstalk.com"⟩ : EbEnv)]) [⟨"ironcliff.ai.", "Z1"⟩]
          (Except.ok ⟨"change-1"⟩) =
        Except.ok ⟨some ⟨"change-1"⟩,
          [⟨R53Action.upsert,
            backendRRSet "ra.ironcliff.ai" (EbEnv.mk "cnameA.elasticbeanstalk.com").cname⟩]⟩
      ∧ create_backend_route53_record "ra.ironcliff.ai"
        (Except.ok [(⟨"cnameB.elasticbeanstalk.com"⟩ : EbEnv)]) [⟨"ironcliff.ai.", "Z1"⟩]
          (Except.ok ⟨"change-2"⟩) =
        Except.ok ⟨some ⟨"change-2"⟩,
          [⟨R53Action.upsert,
            backendRRSet "ra.ironcliff.ai" (EbEnv.mk "cnameB.elasticbeanstalk.com").cname⟩]⟩
      ∧ ∀ store : List RRSet,
          (do
            let s1 ← applyChange store
              ⟨R53Action.upsert,
                backendRRSet "ra.ironcliff.ai" (EbEnv.mk "cnameA.elasticbeanstalk.com").cname⟩
            let s2 ← applyChange s1
              ⟨R53Action.upsert,
                backendRRSet "ra.ironcliff.ai" (EbEnv.mk "cnameB.elasticbeanstalk.com").cname⟩
            pure (lookupRR s2 "ra.ironcliff.ai" "CNAME")) =
          Except.ok (some
            (backendRRSet "ra.ironcliff.ai" (EbEnv.mk "cnameB.elasticbeanstalk.com").cname))) :=
  c8_upsert_second_wins "ra.ironcliff.ai" "dA.cloudfront.net" "dB.cloudfront.net"
    [⟨"ironcliff.ai.", "Z1"⟩] ⟨"ironcliff.ai.", "Z1"⟩ ⟨"change-1"⟩ ⟨"change-2"⟩
    ⟨"cnameA.elasticbeanstalk.com"⟩ ⟨"cnameB.elasticbeanstalk.com"⟩
    (by decide) (by decide) (by decide)
